import Mathlib

/-!
Verification of the RAG pipeline and chat orchestration of the
personal-knowledge-agent repository, as a shallow embedding in Lean 4.

The embedding covers:
- the document/chunk data model and the chunking step (`chunk_documents`,
  backend/src/rag/loader.py);
- the embedder (`DocumentEmbedder.embed_documents`, backend/src/rag/embedder.py);
- the retriever over a vector store (`Retriever.query`, `save_index`,
  `load_index`, backend/src/rag/retriever.py);
- the chat orchestrator (`PersonalKnowledgeAgent`: `retrieve_context`,
  message conversion, context fusion, streaming generator and the
  non-streaming path, backend/src/agent/personal_knowledge.py);
- the HTTP endpoint guard (`chat_completions`, backend/main.py).

Python exceptions are modelled with `Except`; functions of the source that
catch every exception and return a value are embedded as total functions.
External collaborators (the generation backend and the embedding backend)
are injected as function parameters, mirroring the pluggable-backend design.
The nondeterministic identifier and clock calls (`uuid4`, `time`) are
modelled as injected supplies indexed by the number of calls made so far.
Parts delegated to third-party libraries (the langchain text splitter and
the FAISS store) are modelled from the specification text, and are marked
as such in their doc comments.
-/

/-- ConversationMessage: a chat message with a role string and text content,
mirroring the `{"role": ..., "content": ...}` dictionaries of the source. -/
structure ChatMessage where
  role : String
  content : String
deriving DecidableEq

/-- Document: a langchain `Document` as used by the pipeline, carrying the
text (`page_content`) and a metadata dictionary. -/
structure Doc where
  page_content : String
  metadata : List (String × String)
deriving DecidableEq

/-- Modelled from the spec: the chunking step of `chunk_documents`
(backend/src/rag/loader.py) delegates to the third-party langchain
`RecursiveCharacterTextSplitter`, whose code is not part of this repository.
Following the specification of the Chunker (consecutive windows of at most
`chunk_size` characters with `chunk_overlap` characters repeated between
consecutive windows, falling back to raw character slicing), each window
starts `chunk_size - chunk_overlap` characters after the previous one.
The guard on `chunk_size ≤ chunk_overlap` keeps the function total; the
spec makes `chunk_overlap < chunk_size` a precondition. -/
def chunkText (chunk_size chunk_overlap : Nat) (s : List Char) : List (List Char) :=
  if chunk_size ≤ chunk_overlap ∨ s.length ≤ chunk_size then
    [s]
  else
    s.take chunk_size :: chunkText chunk_size chunk_overlap (s.drop (chunk_size - chunk_overlap))
termination_by s.length
decreasing_by
  simp only [List.length_drop]
  omega

/-- Modelled from the spec: `chunk_documents` splits each document into
chunks and each chunk inherits the metadata of its parent document
unmodified. -/
def chunk_documents (documents : List Doc) (chunk_size chunk_overlap : Nat) : List Doc :=
  documents.flatMap fun doc =>
    (chunkText chunk_size chunk_overlap doc.page_content.data).map fun cs =>
      { page_content := String.mk cs, metadata := doc.metadata }

theorem chunkText_length_le (chunk_size chunk_overlap : Nat) (s : List Char)
    (hov : chunk_overlap < chunk_size) :
    ∀ c ∈ chunkText chunk_size chunk_overlap s, c.length ≤ chunk_size := by
  induction s using chunkText.induct chunk_size chunk_overlap with
  | case1 s h =>
    rw [chunkText, if_pos h]
    intro c hc
    rcases List.mem_singleton.mp hc with rfl
    omega
  | case2 s h ih =>
    rw [chunkText, if_neg h]
    intro c hc
    rcases List.mem_cons.mp hc with rfl | hc
    · simp only [List.length_take]
      omega
    · exact ih c hc

theorem chunkText_exhaustive (chunk_size chunk_overlap : Nat) (s : List Char)
    (hov : chunk_overlap < chunk_size) :
    ∀ ch ∈ s, ∃ c ∈ chunkText chunk_size chunk_overlap s, ch ∈ c := by
  induction s using chunkText.induct chunk_size chunk_overlap with
  | case1 s h =>
    rw [chunkText, if_pos h]
    intro ch hch
    exact ⟨s, List.mem_singleton.mpr rfl, hch⟩
  | case2 s h ih =>
    rw [chunkText, if_neg h]
    intro ch hch
    rcases List.mem_append.mp ((List.take_append_drop chunk_size s) ▸ hch) with htk | hdr
    · exact ⟨s.take chunk_size, List.mem_cons_self _ _, htk⟩
    · have hsub : ch ∈ s.drop (chunk_size - chunk_overlap) := by
        have heq : (s.drop (chunk_size - chunk_overlap)).drop chunk_overlap
            = s.drop chunk_size := by
          rw [List.drop_drop]
          congr 1
          omega
        exact List.mem_of_mem_drop (heq ▸ hdr)
      obtain ⟨c, hc, hchc⟩ := ih ch hsub
      exact ⟨c, List.mem_cons_of_mem _ hc, hchc⟩

/-- EmbBackend: the pluggable embedding backend (an external collaborator of
`DocumentEmbedder`): it receives an optional batch-size hint and the batch of
texts, and either returns the embedding vectors or fails. -/
def EmbBackend : Type := Option Nat → List String → Except String (List (List Int))

/-- DocumentEmbedder (backend/src/rag/embedder.py): holds the injected
embedding model and the optional batch size. -/
structure DocumentEmbedder where
  embedding_model : EmbBackend
  batch_size : Option Nat

/-- Batch-size hint actually passed to the backend by `embed_documents`: the
source guards with `if self.batch_size and ...`, and Python truthiness makes
both `None` and `0` fall through to the plain call. -/
def DocumentEmbedder.batchHint (e : DocumentEmbedder) : Option Nat :=
  match e.batch_size with
  | some (n + 1) => some (n + 1)
  | _ => none

/-- Embedding of `DocumentEmbedder.embed_documents`: an empty document list
returns `[]` at once; otherwise the backend is called on the texts, its
exception (if any) is re-raised unchanged, and its result list is returned
unchanged (a count mismatch is only logged as a warning in the source). -/
def DocumentEmbedder.embed_documents (e : DocumentEmbedder) (documents : List Doc) :
    Except String (List (List Int)) :=
  if documents.isEmpty then Except.ok []
  else e.embedding_model e.batchHint (documents.map fun d => d.page_content)

/-- Concrete backend returning a single vector regardless of input size. -/
def badBackend : EmbBackend := fun _ _ => Except.ok [[7]]

/-- Concrete documents used at witness points. -/
def docA : Doc := { page_content := "alpha text", metadata := [] }

def docB : Doc := { page_content := "beta text", metadata := [] }

/-- C6: for every document list and every chunk_size/chunk_overlap with
overlap < chunk_size, no produced chunk exceeds chunk_size characters, and
every character of every source document appears in at least one produced
chunk. -/
theorem C6_chunking_bounded_and_exhaustive (documents : List Doc)
    (chunk_size chunk_overlap : Nat) (hov : chunk_overlap < chunk_size) :
    (∀ c ∈ chunk_documents documents chunk_size chunk_overlap,
        c.page_content.length ≤ chunk_size)
    ∧ ∀ d ∈ documents, ∀ ch ∈ d.page_content.data,
        ∃ c ∈ chunk_documents documents chunk_size chunk_overlap,
          ch ∈ c.page_content.data := by
  constructor
  · intro c hc
    rcases List.mem_flatMap.mp hc with ⟨d, hd, hcd⟩
    rcases List.mem_map.mp hcd with ⟨cs, hcs, rfl⟩
    exact chunkText_length_le chunk_size chunk_overlap d.page_content.data hov cs hcs
  · intro d hd ch hch
    obtain ⟨cs, hcs, hchcs⟩ :=
      chunkText_exhaustive chunk_size chunk_overlap d.page_content.data hov ch hch
    refine ⟨{ page_content := String.mk cs, metadata := d.metadata }, ?_, hchcs⟩
    exact List.mem_flatMap.mpr ⟨d, hd, List.mem_map.mpr ⟨cs, hcs, rfl⟩⟩

/-- C6 witness: the spec scenario document with chunk_size = 20 and
overlap = 5 satisfies both conjuncts. -/
theorem C6_chunking_bounded_and_exhaustive_witness :
    5 < 20
    ∧ ((∀ c ∈ chunk_documents [{ page_content := "The quick brown fox. The lazy dog.", metadata := [] }] 20 5,
          c.page_content.length ≤ 20)
       ∧ ∀ d ∈ [({ page_content := "The quick brown fox. The lazy dog.", metadata := [] } : Doc)],
           ∀ ch ∈ d.page_content.data,
             ∃ c ∈ chunk_documents [{ page_content := "The quick brown fox. The lazy dog.", metadata := [] }] 20 5,
               ch ∈ c.page_content.data) :=
  ⟨by decide,
   C6_chunking_bounded_and_exhaustive
     [{ page_content := "The quick brown fox. The lazy dog.", metadata := [] }] 20 5 (by decide)⟩

/-- C3 counterexample: a backend that returns one vector for two input
documents makes `embed_documents` return that single-vector list as a
success, with no `EmbeddingBackendError`: the mismatched count is not
surfaced as an error (the source only logs a warning). -/
theorem C3_mismatch_counterexample :
    (DocumentEmbedder.mk badBackend none).embed_documents [docA, docB]
        = Except.ok [[7]]
    ∧ [[(7 : Int)]].length ≠ [docA, docB].length := by
  exact ⟨rfl, by decide⟩

/-- C3 (amended): on a non-empty document list, `embed_documents` returns
exactly what the backend returns for the texts in order: a success list is
passed through unchanged (even when its count mismatches, where the source
only logs a warning), and a backend exception propagates unchanged; no
`EmbeddingBackendError` wrapping exists. -/
theorem C3_embed_documents_delegates (e : DocumentEmbedder) (documents : List Doc)
    (hne : documents ≠ []) :
    e.embed_documents documents
      = e.embedding_model e.batchHint (documents.map fun d => d.page_content) := by
  unfold DocumentEmbedder.embed_documents
  rw [if_neg]
  simpa [List.isEmpty_iff] using hne

/-- C3 witness: the amended theorem applied at a concrete embedder and a
concrete one-document list. -/
theorem C3_embed_documents_delegates_witness :
    [docA] ≠ ([] : List Doc)
    ∧ (DocumentEmbedder.mk badBackend none).embed_documents [docA] = Except.ok [[7]] := by
  refine ⟨by decide, ?_⟩
  rw [C3_embed_documents_delegates (DocumentEmbedder.mk badBackend none) [docA] (by decide)]
  rfl

/-- C10: `embed_documents` on the empty document list returns the empty
list for every embedder, in particular for embedders whose backend always
fails, so the backend is never invoked on empty input. -/
theorem C10_embed_documents_empty (e : DocumentEmbedder) :
    e.embed_documents [] = Except.ok [] := rfl

/-- Dot product of two integer-valued embedding vectors. -/
def dot (u v : List Int) : Int :=
  (List.zipWith (fun a b => a * b) u v).foldl (fun a b => a + b) 0

/-- Modelled from the spec: exact comparison of cosine similarities.
Decides whether cos(q, u) is at least cos(q, v). Writing a for dot q u,
b for dot q v, X for dot u u and Y for dot v v, the comparison of
a / sqrt X with b / sqrt Y (the common positive factor of the norm of q
cancels) is settled by sign analysis and cross-multiplied squares, so no
real arithmetic is needed. -/
def cosGe (q u v : List Int) : Bool :=
  let a := dot q u
  let b := dot q v
  let x := dot u u
  let y := dot v v
  if 0 ≤ a then
    if 0 ≤ b then a * a * y ≥ b * b * x else true
  else
    if 0 ≤ b then false else a * a * y ≤ b * b * x

/-- VectorIndex entry: a triple of embedding vector, chunk text and chunk
metadata, as the spec defines it. -/
structure IndexEntry where
  vec : List Int
  text : String
  metadata : List (String × String)
deriving DecidableEq

/-- Stable descending insertion by cosine similarity against the query
vector q: an element is placed before the first existing element whose
similarity it reaches, so equal similarities keep insertion order. -/
def insertByCos (q : List Int) (e : IndexEntry) : List IndexEntry → List IndexEntry
  | [] => [e]
  | f :: rest =>
    if cosGe q e.vec f.vec then e :: f :: rest
    else f :: insertByCos q e rest

/-- Stable sort of index entries by descending cosine similarity. -/
def sortByCos (q : List Int) : List IndexEntry → List IndexEntry
  | [] => []
  | e :: rest => insertByCos q e (sortByCos q rest)

/-- Modelled from the spec: the FAISS vector store held by the Retriever is
third-party library code; per the spec it is the full entry set of
(vector, text, metadata) triples, searched exactly. -/
structure VStore where
  entries : List IndexEntry
deriving DecidableEq

/-- Modelled from the spec: similarity search over the store, returning the
top k entries by descending cosine similarity, ties broken by insertion
order. -/
def VStore.search (vs : VStore) (q : List Int) (k : Nat) : List IndexEntry :=
  (sortByCos q vs.entries).take k

/-- Retriever (backend/src/rag/retriever.py): holds the embedding model and
an optional vector store; `vectorstore = none` models the uninitialized
state the source guards with `if not self.vectorstore`. -/
structure Retriever where
  embed : String → List Int
  vectorstore : Option VStore

/-- Embedding of `Retriever.query`: with no initialized vectorstore the
source logs an error and returns the empty list; otherwise it runs
similarity search (whose own failures are also caught and turned into the
empty list, so the embedding is total) and returns the hit documents. -/
def Retriever.query (r : Retriever) (query_text : String) (top_k : Nat) : List Doc :=
  match r.vectorstore with
  | none => []
  | some vs =>
    (vs.search (r.embed query_text) top_k).map fun e =>
      { page_content := e.text, metadata := e.metadata }

/-- Spec-side definition, following the words of the specification only
(for comparison with `Retriever.query`): querying before build has
succeeded fails with IndexNotReadyError, modelled as `Except.error ()`. -/
def Retriever.querySpec (r : Retriever) (query_text : String) (top_k : Nat) :
    Except Unit (List Doc) :=
  match r.vectorstore with
  | none => Except.error ()
  | some vs =>
    Except.ok ((vs.search (r.embed query_text) top_k).map fun e =>
      { page_content := e.text, metadata := e.metadata })

/-- Serialized form of the vector store: the entry fields as parallel
sequences (vectors, texts, metadata), per the spec of persist/load. -/
structure SavedIndex where
  vectors : List (List Int)
  texts : List String
  metadatas : List (List (String × String))
deriving DecidableEq

/-- Modelled from the spec: serialization of the full entry set. -/
def saveLocal (vs : VStore) : SavedIndex :=
  { vectors := vs.entries.map fun e => e.vec
    texts := vs.entries.map fun e => e.text
    metadatas := vs.entries.map fun e => e.metadata }

/-- Rebuilds the entry list from the parallel sequences, failing on a
length mismatch. -/
def zipEntries : List (List Int) → List String → List (List (String × String)) →
    Option (List IndexEntry)
  | [], [], [] => some []
  | v :: vs, t :: ts, m :: ms =>
    (zipEntries vs ts ms).map fun rest => ⟨v, t, m⟩ :: rest
  | _, _, _ => none

/-- Modelled from the spec: deserialization of a persisted index. -/
def loadLocal (s : SavedIndex) : Option VStore :=
  (zipEntries s.vectors s.texts s.metadatas).map VStore.mk

/-- Embedding of `Retriever.save_index`: with no initialized vectorstore the
source logs a warning and writes nothing (modelled as `none`); otherwise the
store is serialized. -/
def Retriever.save_index (r : Retriever) : Option SavedIndex :=
  r.vectorstore.map saveLocal

/-- Embedding of `Retriever.load_index`: replaces the vectorstore with the
deserialized one (a failing load raises in the source, modelled as `none`). -/
def Retriever.load_index (r : Retriever) (s : SavedIndex) : Option Retriever :=
  (loadLocal s).map fun vs => { r with vectorstore := some vs }

theorem zipEntries_saveLocal (entries : List IndexEntry) :
    zipEntries (entries.map fun e => e.vec) (entries.map fun e => e.text)
        (entries.map fun e => e.metadata)
      = some entries := by
  induction entries with
  | nil => rfl
  | cons e rest ih => simp [zipEntries, ih]

theorem loadLocal_saveLocal (vs : VStore) : loadLocal (saveLocal vs) = some vs := by
  simp [loadLocal, saveLocal, zipEntries_saveLocal]

/-- One element of the `choices` array of an emitted stream chunk:
`delta` is the content payload (absent in the terminal chunk), `index` the
sequence index and `finish_reason` the finish marker. -/
structure ChunkChoice where
  delta : Option String
  index : Nat
  finish_reason : Option String
deriving DecidableEq

/-- One emitted stream chunk, as built by the streaming generator of
`PersonalKnowledgeAgent.run`. -/
structure StreamChunk where
  id : String
  object : String
  created : Nat
  model : String
  choices : List ChunkChoice
deriving DecidableEq

/-- Generation backend (external collaborator): `complete` returns the full
completion content of the single choice; `completeStream` returns the
per-chunk delta contents in arrival order, where `none` models a chunk
whose delta carries no content field. Token limit and temperature are
forwarded opaquely and are folded into the injected functions. -/
structure Backend where
  complete : List ChatMessage → Except String String
  completeStream : List ChatMessage → Except String (List (Option String))

/-- PersonalKnowledgeAgent (backend/src/agent/personal_knowledge.py): the
fields of the orchestrator that determine its observable behavior. -/
structure PersonalKnowledgeAgent where
  model_name : String
  stream : Bool
  rag_enabled : Bool
  retriever : Option Retriever

/-- Embedding of `PersonalKnowledgeAgent._convert_messages`: keeps messages
whose role is user, assistant or system, in order, and drops the rest with
a warning. -/
def convert_messages (messages : List ChatMessage) : List ChatMessage :=
  messages.filter fun m =>
    m.role == "user" || m.role == "assistant" || m.role == "system"

/-- Embedding of `PersonalKnowledgeAgent.retrieve_context`: returns `[]`
when RAG is disabled or no retriever is present; otherwise maps each
retrieved document to a system-role message whose content is the document
text sliced to its first 1500 characters (`doc.page_content[:1500]`) after
the `[CONTEXT] ` prefix. -/
def PersonalKnowledgeAgent.retrieve_context (a : PersonalKnowledgeAgent)
    (user_query : String) (top_k : Nat) : List ChatMessage :=
  match a.rag_enabled, a.retriever with
  | true, some r =>
    (r.query user_query top_k).map fun doc =>
      { role := "system"
        content := "[CONTEXT] " ++ String.mk (doc.page_content.data.take 1500) }
  | _, _ => []

/-- Embedding of the context-fusion steps of `PersonalKnowledgeAgent.run`
(personal_knowledge.py lines 131 to 140): convert the messages; when
`include_context` is set, find the most recent user-role message and, if
one exists and RAG is enabled, prepend the retrieved context messages;
otherwise (only when `include_context` is not set) prepend the explicit
`context_messages` when that argument is truthy. -/
def fuseMessages (a : PersonalKnowledgeAgent) (messages : List ChatMessage)
    (include_context : Bool) (context_messages : Option (List ChatMessage)) :
    List ChatMessage :=
  let chat_messages := convert_messages messages
  if include_context then
    match chat_messages.reverse.find? (fun m => m.role == "user") with
    | some user_message =>
      if a.rag_enabled then
        a.retrieve_context user_message.content 3 ++ chat_messages
      else chat_messages
    | none => chat_messages
  else
    match context_messages with
    | some cm => if cm.isEmpty then chat_messages else cm ++ chat_messages
    | none => chat_messages

/-- Content chunk emitted by the streaming generator for the fragment at
sequence index i: fresh identifier, creation timestamp, the content delta
and no finish reason. -/
def contentChunk (model_name : String) (newId : Nat → String) (now : Nat → Nat)
    (i : Nat) (c : String) : StreamChunk :=
  { id := "chatcmpl-" ++ newId i
    object := "chat.completion.chunk"
    created := now i
    model := model_name
    choices := [{ delta := some c, index := i, finish_reason := none }] }

/-- Terminal chunk emitted once after all content chunks: empty delta and
the stop finish reason, at the next sequence index. -/
def stopChunk (model_name : String) (newId : Nat → String) (now : Nat → Nat)
    (i : Nat) : StreamChunk :=
  { id := "chatcmpl-" ++ newId i
    object := "chat.completion.chunk"
    created := now i
    model := model_name
    choices := [{ delta := none, index := i, finish_reason := some "stop" }] }

/-- Embedding of the `generator` loop inside `PersonalKnowledgeAgent.run`:
walks the backend chunks in arrival order, emits a wrapped chunk for every
truthy content delta (Python truthiness skips both a missing content field
and an empty string) incrementing the index, and finally emits the stop
chunk. The identifier and clock supplies are indexed by the number of
chunks emitted so far. -/
def generatorLoop (model_name : String) (newId : Nat → String) (now : Nat → Nat)
    (index : Nat) : List (Option String) → List StreamChunk
  | [] => [stopChunk model_name newId now index]
  | none :: rest => generatorLoop model_name newId now index rest
  | some c :: rest =>
    if c.isEmpty then generatorLoop model_name newId now index rest
    else contentChunk model_name newId now index c ::
      generatorLoop model_name newId now (index + 1) rest

/-- The streaming generator, started at index 0 as in the source. -/
def generator (model_name : String) (newId : Nat → String) (now : Nat → Nat)
    (deltas : List (Option String)) : List StreamChunk :=
  generatorLoop model_name newId now 0 deltas

/-- Result of `PersonalKnowledgeAgent.run`: either a full response string or
the materialized streaming generator output. -/
inductive RunResult where
  | text : String → RunResult
  | stream : List StreamChunk → RunResult
deriving DecidableEq

/-- The fixed degraded response returned when the generation call fails. -/
def llmFailureMessage : String := "❌ LLM response generation failed."

/-- Embedding of `PersonalKnowledgeAgent.run`: fuses the messages, invokes
the generation backend in the requested mode, and converts any backend
exception into the fixed degraded response (the whole body sits in one
try/except in the source). -/
def PersonalKnowledgeAgent.run (a : PersonalKnowledgeAgent) (b : Backend)
    (newId : Nat → String) (now : Nat → Nat) (messages : List ChatMessage)
    (include_context : Bool) (context_messages : Option (List ChatMessage)) :
    RunResult :=
  let chat_messages := fuseMessages a messages include_context context_messages
  if a.stream then
    match b.completeStream chat_messages with
    | Except.ok deltas => RunResult.stream (generator a.model_name newId now deltas)
    | Except.error _ => RunResult.text llmFailureMessage
  else
    match b.complete chat_messages with
    | Except.ok content => RunResult.text content
    | Except.error _ => RunResult.text llmFailureMessage

/-- Request body of POST /v1/chat/completions (backend/main.py); token
limit and temperature are forwarded opaquely to the backend and are folded
into the injected backend functions. -/
structure RequestBody where
  model : String
  messages : List ChatMessage
  stream : Bool
  include_context : Bool

/-- Errors surfaced by the endpoint: the HTTP 400 raised for an empty
message list (the EmptyConversationError of the spec) and the generic
HTTP 500. -/
inductive ApiError where
  | emptyConversation
  | internalError
deriving DecidableEq

/-- Result of the endpoint: a streaming response or a JSON completion, both
carrying the agent output. -/
inductive ApiResult where
  | streamingResponse : RunResult → ApiResult
  | jsonResponse : RunResult → ApiResult
deriving DecidableEq

/-- Embedding of `chat_completions` (backend/main.py): rejects an empty
message list with HTTP 400 before anything else, then delegates to
`PersonalKnowledgeAgent.run` in the requested mode (the endpoint never
passes explicit context messages). -/
def chat_completions (agent : PersonalKnowledgeAgent) (b : Backend)
    (newId : Nat → String) (now : Nat → Nat) (request : RequestBody) :
    Except ApiError ApiResult :=
  if request.messages.isEmpty then
    Except.error ApiError.emptyConversation
  else if request.stream then
    Except.ok (ApiResult.streamingResponse
      (agent.run b newId now request.messages request.include_context none))
  else
    Except.ok (ApiResult.jsonResponse
      (agent.run b newId now request.messages request.include_context none))

/-- Concrete embedding function used at witness points. -/
def embed0 : String → List Int := fun _ => [1, 0]

/-- Concrete index entries used at witness points. -/
def entry1 : IndexEntry := { vec := [1, 0], text := "alpha doc", metadata := [] }

def entry2 : IndexEntry := { vec := [0, 1], text := "beta doc", metadata := [] }

/-- Concrete two-entry vector store used at witness points. -/
def vstore0 : VStore := { entries := [entry1, entry2] }

/-- Concrete built retriever used at witness points. -/
def retriever0 : Retriever := { embed := embed0, vectorstore := some vstore0 }

/-- Concrete retriever whose vectorstore was never initialized. -/
def retrieverNone : Retriever := { embed := embed0, vectorstore := none }

/-- Concrete non-streaming agent with RAG enabled, used at witness points. -/
def agent0 : PersonalKnowledgeAgent :=
  { model_name := "gpt-4", stream := false, rag_enabled := true
    retriever := some retriever0 }

/-- Concrete streaming agent without RAG, used at witness points. -/
def agentS : PersonalKnowledgeAgent :=
  { model_name := "gpt-4", stream := true, rag_enabled := false, retriever := none }

/-- Concrete identifier and clock supplies used at witness points. -/
def newId0 : Nat → String := fun _ => "uid"

def now0 : Nat → Nat := fun _ => 0

/-- Concrete backend whose calls always fail. -/
def failBackend : Backend :=
  { complete := fun _ => Except.error "boom"
    completeStream := fun _ => Except.error "boom" }

/-- Concrete backend returning the completion abc, streamed in three
fragments. -/
def abcBackend : Backend :=
  { complete := fun _ => Except.ok "abc"
    completeStream := fun _ => Except.ok [some "a", some "b", some "c"] }

/-- Concrete user message used at witness points. -/
def msgU : ChatMessage := { role := "user", content := "hi" }

/-- Concrete request with an empty message list. -/
def emptyRequest : RequestBody :=
  { model := "gpt-4", messages := [], stream := false, include_context := false }

/-- C4 counterexample: querying the retriever whose vectorstore was never
initialized returns the empty list as an ordinary result, while the
specification text (the spec-side definition `Retriever.querySpec`) demands
an IndexNotReadyError at the same input. -/
theorem C4_query_counterexample :
    retrieverNone.query "hello" 5 = []
    ∧ retrieverNone.querySpec "hello" 5 = Except.error () :=
  ⟨rfl, rfl⟩

/-- C4 (amended): querying a Retriever before its vectorstore is
initialized does not fail: the source logs an error and returns the empty
list. -/
theorem C4_query_uninitialized_returns_empty (r : Retriever) (query_text : String)
    (top_k : Nat) (h : r.vectorstore = none) :
    r.query query_text top_k = [] := by
  simp [Retriever.query, h]

/-- C4 witness: the amended theorem applied to the concrete uninitialized
retriever. -/
theorem C4_query_uninitialized_returns_empty_witness :
    retrieverNone.vectorstore = none ∧ retrieverNone.query "later" 2 = [] :=
  ⟨rfl, C4_query_uninitialized_returns_empty retrieverNone "later" 2 rfl⟩

/-- C8: on a built retriever, persisting the index and loading it back
restores the retriever exactly, so every query returns the identical
ranked result list as on the original index. -/
theorem C8_persist_roundtrip (r : Retriever) (vs : VStore)
    (h : r.vectorstore = some vs) :
    r.save_index = some (saveLocal vs)
    ∧ r.load_index (saveLocal vs) = some r
    ∧ ∀ query_text top_k,
        (r.load_index (saveLocal vs)).map (fun r2 => r2.query query_text top_k)
          = some (r.query query_text top_k) := by
  obtain ⟨emb, store⟩ := r
  have hst : store = some vs := h
  subst hst
  have hload : Retriever.load_index ⟨emb, some vs⟩ (saveLocal vs) = some ⟨emb, some vs⟩ := by
    simp [Retriever.load_index, loadLocal_saveLocal]
  refine ⟨rfl, hload, ?_⟩
  intro query_text top_k
  rw [hload]
  rfl

/-- C8 witness: the round trip on the concrete two-entry retriever, with a
concrete query. -/
theorem C8_persist_roundtrip_witness :
    retriever0.vectorstore = some vstore0
    ∧ retriever0.save_index = some (saveLocal vstore0)
    ∧ retriever0.load_index (saveLocal vstore0) = some retriever0
    ∧ (retriever0.load_index (saveLocal vstore0)).map (fun r2 => r2.query "hi" 2)
        = some (retriever0.query "hi" 2) := by
  have h := C8_persist_roundtrip retriever0 vstore0 rfl
  exact ⟨rfl, h.1, h.2.1, h.2.2 "hi" 2⟩

/-- C7: `retrieve_context` returns the empty list (not an error) when RAG
is disabled, when no retriever is present, and when the index store is
absent; otherwise it maps each retrieved hit to a system-role message
whose content is the `[CONTEXT] ` prefix followed by the hit text cut to
its first 1500 characters, and every produced message carries the system
role. -/
theorem C7_retrieve_context (a : PersonalKnowledgeAgent) (user_query : String)
    (top_k : Nat) :
    ((a.rag_enabled = false ∨ a.retriever = none) →
        a.retrieve_context user_query top_k = [])
    ∧ (∀ r, a.retriever = some r → r.vectorstore = none →
        a.retrieve_context user_query top_k = [])
    ∧ (∀ r, a.rag_enabled = true → a.retriever = some r →
        a.retrieve_context user_query top_k
          = (r.query user_query top_k).map fun doc =>
              ({ role := "system"
                 content := "[CONTEXT] " ++ String.mk (doc.page_content.data.take 1500) } : ChatMessage))
    ∧ (∀ m ∈ a.retrieve_context user_query top_k, m.role = "system") := by
  obtain ⟨mn, st, rag, ret⟩ := a
  refine ⟨?_, ?_, ?_, ?_⟩
  · intro h
    rcases h with h | h
    · have hrag : rag = false := h
      subst hrag
      rfl
    · have hret : ret = none := h
      subst hret
      cases rag <;> rfl
  · intro r hr hvs
    have hret : ret = some r := hr
    subst hret
    cases rag
    · rfl
    · simp [PersonalKnowledgeAgent.retrieve_context, Retriever.query, hvs]
  · intro r hrag hr
    have hrag2 : rag = true := hrag
    have hret : ret = some r := hr
    subst hrag2
    subst hret
    rfl
  · intro m hm
    cases rag <;> rcases ret with _ | r
    · exact absurd hm (by simp [PersonalKnowledgeAgent.retrieve_context])
    · exact absurd hm (by simp [PersonalKnowledgeAgent.retrieve_context])
    · exact absurd hm (by simp [PersonalKnowledgeAgent.retrieve_context])
    · simp only [PersonalKnowledgeAgent.retrieve_context] at hm
      rcases List.mem_map.mp hm with ⟨doc, _, rfl⟩
      rfl

/-- C7 witness: the mapping conjunct applied to the concrete RAG-enabled
agent, with both sides evaluated. -/
theorem C7_retrieve_context_witness :
    agent0.rag_enabled = true
    ∧ agent0.retriever = some retriever0
    ∧ (agent0.retrieve_context "hi" 3
        = (retriever0.query "hi" 3).map fun doc =>
            ({ role := "system"
               content := "[CONTEXT] " ++ String.mk (doc.page_content.data.take 1500) } : ChatMessage))
    ∧ agent0.retrieve_context "hi" 3
        = [{ role := "system", content := "[CONTEXT] alpha doc" },
           { role := "system", content := "[CONTEXT] beta doc" }] :=
  ⟨rfl, rfl, (C7_retrieve_context agent0 "hi" 3).2.2.1 retriever0 rfl rfl, by decide⟩

/-- C1: in the context-fusion step of `PersonalKnowledgeAgent.run`, at most
one fusion path executes and `include_context` takes precedence: with
`include_context` set the explicit context messages are ignored entirely;
when additionally a user-role message exists (found searching the converted
list from the end backward) and RAG is enabled, the retrieved context
messages are prepended ahead of the full converted message sequence; only
with `include_context` unset are the explicit context messages prepended;
and with `include_context` set and two retrieved context messages the fused
list is exactly [context1, context2, original messages]. -/
theorem C1_context_fusion (a : PersonalKnowledgeAgent) (messages : List ChatMessage)
    (context_messages : Option (List ChatMessage)) :
    (fuseMessages a messages true context_messages = fuseMessages a messages true none)
    ∧ (∀ user_message,
        (convert_messages messages).reverse.find? (fun m => m.role == "user")
            = some user_message →
        a.rag_enabled = true →
        fuseMessages a messages true context_messages
          = a.retrieve_context user_message.content 3 ++ convert_messages messages)
    ∧ (∀ ecm, ecm ≠ [] →
        fuseMessages a messages false (some ecm) = ecm ++ convert_messages messages)
    ∧ (fuseMessages a messages false none = convert_messages messages)
    ∧ (∀ user_message m1 m2,
        (convert_messages messages).reverse.find? (fun m => m.role == "user")
            = some user_message →
        a.rag_enabled = true →
        a.retrieve_context user_message.content 3 = [m1, m2] →
        fuseMessages a messages true context_messages
          = m1 :: m2 :: convert_messages messages) := by
  refine ⟨rfl, ?_, ?_, rfl, ?_⟩
  · intro user_message hfind hrag
    simp [fuseMessages, hfind, hrag]
  · intro ecm hne
    have hne2 : ecm.isEmpty = false := by
      simpa [List.isEmpty_iff] using hne
    simp [fuseMessages, hne2]
  · intro user_message m1 m2 hfind hrag hctx
    simp [fuseMessages, hfind, hrag, hctx]

/-- C1 witness: the scenario conjunct at a concrete agent whose retriever
returns two chunks for the single user message. -/
theorem C1_context_fusion_witness :
    (convert_messages [msgU]).reverse.find? (fun m => m.role == "user") = some msgU
    ∧ agent0.rag_enabled = true
    ∧ agent0.retrieve_context msgU.content 3
        = [{ role := "system", content := "[CONTEXT] alpha doc" },
           { role := "system", content := "[CONTEXT] beta doc" }]
    ∧ fuseMessages agent0 [msgU] true (some [{ role := "system", content := "ignored" }])
        = { role := "system", content := "[CONTEXT] alpha doc" }
          :: { role := "system", content := "[CONTEXT] beta doc" }
          :: convert_messages [msgU] := by
  refine ⟨by decide, rfl, by decide, ?_⟩
  exact (C1_context_fusion agent0 [msgU]
      (some [{ role := "system", content := "ignored" }])).2.2.2.2 msgU
      { role := "system", content := "[CONTEXT] alpha doc" }
      { role := "system", content := "[CONTEXT] beta doc" }
      (by decide) rfl (by decide)

/-- Content fragments of a backend stream: the truthy delta contents, in
arrival order (chunks without a content field and empty-string contents are
skipped by the generator). -/
def contentFragments (deltas : List (Option String)) : List String :=
  (deltas.filterMap id).filter fun c => !c.isEmpty

/-- Concatenation of a list of strings. -/
def concatAll : List String → String
  | [] => ""
  | s :: rest => s ++ concatAll rest

/-- The delta content carried by an emitted chunk with its single choice,
if any. -/
def chunkDeltaContent (ch : StreamChunk) : Option String :=
  match ch.choices with
  | [c] => c.delta
  | _ => none

/-- Concatenation of all delta contents of an emitted chunk sequence. -/
def streamConcat (chunks : List StreamChunk) : String :=
  concatAll (chunks.filterMap chunkDeltaContent)

theorem generatorLoop_eq (model_name : String) (newId : Nat → String)
    (now : Nat → Nat) (deltas : List (Option String)) : ∀ index : Nat,
    generatorLoop model_name newId now index deltas
      = ((contentFragments deltas).mapIdx fun j c =>
          contentChunk model_name newId now (index + j) c)
        ++ [stopChunk model_name newId now (index + (contentFragments deltas).length)] := by
  induction deltas with
  | nil =>
    intro index
    simp [generatorLoop, contentFragments]
  | cons d rest ih =>
    intro index
    cases d with
    | none =>
      simpa [generatorLoop, contentFragments] using ih index
    | some c =>
      by_cases hc : c.isEmpty
      · have h1 : generatorLoop model_name newId now index (some c :: rest)
            = generatorLoop model_name newId now index rest := by
          simp [generatorLoop, hc]
        have h2 : contentFragments (some c :: rest) = contentFragments rest := by
          simp [contentFragments, hc]
        rw [h1, h2, ih index]
      · have h1 : generatorLoop model_name newId now index (some c :: rest)
            = contentChunk model_name newId now index c ::
              generatorLoop model_name newId now (index + 1) rest := by
          simp [generatorLoop, hc]
        have h2 : contentFragments (some c :: rest) = c :: contentFragments rest := by
          simp [contentFragments, hc]
        rw [h1, h2, List.mapIdx_cons, ih (index + 1)]
        simp [Nat.add_assoc, Nat.add_comm 1]

theorem generatorLoop_concat (model_name : String) (newId : Nat → String)
    (now : Nat → Nat) (deltas : List (Option String)) : ∀ index : Nat,
    concatAll ((generatorLoop model_name newId now index deltas).filterMap
        chunkDeltaContent)
      = concatAll (deltas.filterMap id) := by
  induction deltas with
  | nil =>
    intro index
    simp [generatorLoop, stopChunk, chunkDeltaContent, concatAll]
  | cons d rest ih =>
    intro index
    cases d with
    | none =>
      simpa [generatorLoop] using ih index
    | some c =>
      by_cases hc : c.isEmpty
      · have hce : c = "" := by
          simpa [String.isEmpty_iff] using hc
        have h1 : generatorLoop model_name newId now index (some c :: rest)
            = generatorLoop model_name newId now index rest := by
          simp [generatorLoop, hc]
        subst hce
        rw [h1, ih index]
        simp [concatAll, String.empty_append]
      · have h1 : generatorLoop model_name newId now index (some c :: rest)
            = contentChunk model_name newId now index c ::
              generatorLoop model_name newId now (index + 1) rest := by
          simp [generatorLoop, hc]
        rw [h1]
        simp only [List.filterMap_cons, chunkDeltaContent, contentChunk,
          List.filterMap_cons_some, concatAll]
        rw [ih (index + 1)]

/-- C2: the streaming generator emits exactly the truthy content fragments
in arrival order, each wrapped with a chunk identifier, creation timestamp
and its sequence index, followed by exactly one terminal stop chunk with no
content, so a stream of n content fragments yields n + 1 emitted chunks;
the concatenation of the streamed content equals the concatenation of the
backend deltas, which is what the non-streaming path returns verbatim for
the same backend reply. -/
theorem C2_streaming (model_name : String) (newId : Nat → String) (now : Nat → Nat)
    (deltas : List (Option String)) :
    (generator model_name newId now deltas
      = ((contentFragments deltas).mapIdx fun j c =>
          contentChunk model_name newId now j c)
        ++ [stopChunk model_name newId now (contentFragments deltas).length])
    ∧ (generator model_name newId now deltas).length
        = (contentFragments deltas).length + 1
    ∧ streamConcat (generator model_name newId now deltas)
        = concatAll (deltas.filterMap id)
    ∧ ∀ (a : PersonalKnowledgeAgent) (b : Backend) (messages : List ChatMessage)
        (include_context : Bool) (context_messages : Option (List ChatMessage))
        (s : String),
        a.stream = false →
        b.complete (fuseMessages a messages include_context context_messages)
            = Except.ok s →
        a.run b newId now messages include_context context_messages
          = RunResult.text s := by
  have hmain := generatorLoop_eq model_name newId now deltas 0
  simp only [Nat.zero_add] at hmain
  refine ⟨hmain, ?_, ?_, ?_⟩
  · rw [generator, hmain]
    simp
  · exact generatorLoop_concat model_name newId now deltas 0
  · intro a b messages include_context context_messages s hstream hok
    simp [PersonalKnowledgeAgent.run, hstream, hok]

/-- C2 witness: a three-fragment backend stream yields exactly four emitted
chunks whose content concatenation abc equals the non-streaming output of
the same backend reply. -/
theorem C2_streaming_witness :
    (generator "gpt-4" newId0 now0 [some "a", some "b", some "c"]).length = 3 + 1
    ∧ streamConcat (generator "gpt-4" newId0 now0 [some "a", some "b", some "c"])
        = "abc"
    ∧ agent0.stream = false
    ∧ abcBackend.complete (fuseMessages agent0 [msgU] false none) = Except.ok "abc"
    ∧ agent0.run abcBackend newId0 now0 [msgU] false none = RunResult.text "abc" := by
  have h := C2_streaming "gpt-4" newId0 now0 [some "a", some "b", some "c"]
  refine ⟨?_, ?_, rfl, rfl, h.2.2.2 agent0 abcBackend [msgU] false none "abc" rfl rfl⟩
  · rw [h.2.1]
    decide
  · rw [h.2.2.1]
    decide

/-- C5: whenever the generation backend call raises, `run` does not
propagate the exception but returns the fixed degraded apology string, in
the non-streaming path and in the streaming path alike; the empty-message
precondition failure of the endpoint is not converted this way but stays a
hard error raised before `run` is ever invoked. -/
theorem C5_generation_failsoft (a : PersonalKnowledgeAgent) (b : Backend)
    (newId : Nat → String) (now : Nat → Nat) (messages : List ChatMessage)
    (include_context : Bool) (context_messages : Option (List ChatMessage))
    (err : String) :
    (a.stream = false →
      b.complete (fuseMessages a messages include_context context_messages)
          = Except.error err →
      a.run b newId now messages include_context context_messages
        = RunResult.text llmFailureMessage)
    ∧ (a.stream = true →
      b.completeStream (fuseMessages a messages include_context context_messages)
          = Except.error err →
      a.run b newId now messages include_context context_messages
        = RunResult.text llmFailureMessage)
    ∧ ∀ request : RequestBody, request.messages = [] →
        chat_completions a b newId now request
          = Except.error ApiError.emptyConversation := by
  refine ⟨?_, ?_, ?_⟩
  · intro hstream herr
    simp [PersonalKnowledgeAgent.run, hstream, herr]
  · intro hstream herr
    simp [PersonalKnowledgeAgent.run, hstream, herr]
  · intro request hreq
    simp [chat_completions, hreq]

/-- C5 witness: a backend whose calls fail makes both the non-streaming
agent and the streaming agent return the apology text, while the empty
request stays a hard endpoint error. -/
theorem C5_generation_failsoft_witness :
    agent0.run failBackend newId0 now0 [msgU] false none
        = RunResult.text llmFailureMessage
    ∧ agentS.run failBackend newId0 now0 [msgU] false none
        = RunResult.text llmFailureMessage
    ∧ chat_completions agent0 failBackend newId0 now0 emptyRequest
        = Except.error ApiError.emptyConversation := by
  have h1 := C5_generation_failsoft agent0 failBackend newId0 now0 [msgU] false none "boom"
  have h2 := C5_generation_failsoft agentS failBackend newId0 now0 [msgU] false none "boom"
  exact ⟨h1.1 rfl rfl, h2.2.1 rfl rfl, h1.2.2 emptyRequest rfl⟩

/-- C9: the chat-completion endpoint rejects an empty incoming message list
with the empty-conversation error for every agent and every backend, so
neither context fusion nor generation is attempted. -/
theorem C9_empty_conversation (agent : PersonalKnowledgeAgent) (b : Backend)
    (newId : Nat → String) (now : Nat → Nat) (request : RequestBody)
    (h : request.messages = []) :
    chat_completions agent b newId now request
      = Except.error ApiError.emptyConversation := by
  simp [chat_completions, h]

/-- C9 witness: the concrete empty request is rejected. -/
theorem C9_empty_conversation_witness :
    chat_completions agentS failBackend newId0 now0 emptyRequest
      = Except.error ApiError.emptyConversation :=
  C9_empty_conversation agentS failBackend newId0 now0 emptyRequest rfl
